import Mathlib

/-!
Verification of the ShadowPay console control-flow engine
(`internal/cli`: the bubbletea `Model` in part_008 and the `inputForm`
widget in part_009 of the repository sources).

The embedding translates the Go code shallowly:
* Go `int` becomes `Int`; slices become `List`.
* The bubbletea messages consumed by `Model.Update` become the closed
  inductive `Msg` (`operationSuccessMsg`, `operationErrorMsg`,
  `loadingMsg`, `tea.WindowSizeMsg`, `tea.KeyMsg`).
* A `tea.Cmd` is `Option Cmd`: `none` is Go `nil`; `Cmd.quit` is
  `tea.Quit`; `Cmd.op body` is a deferred operation closure.  Every
  operation closure constructed anywhere in the cli package returns
  either `operationSuccessMsg` or `operationErrorMsg` (the type
  `loadingMsg` is consumed in `Model.Update` but constructed nowhere in
  the repository), so a body's codomain is the two-constructor
  `OpOutcome`.  The Remote Operation Client is an external collaborator:
  each remote call's outcome in a given run is an oracle field of
  `ClientEnv` (`Except` failure text or rendered success text); request
  payloads and response formatting are presentation and are folded into
  the oracle.
* Styling (`lipgloss`) is reduced to the severity tag `Style`, the only
  behaviourally relevant part (`successStyle` vs `errorStyle`).
-/

set_option linter.unusedVariables false

namespace SolPrivacyCli

/-- Enumeration `view` from the cli package: `mainMenuView view = iota`,
then one sub-view per operation domain plus `settingsView`. -/
inductive View where
  | mainMenuView
  | paymentView
  | poolView
  | tokenView
  | authorizationView
  | merchantView
  | webhookView
  | shadowIDView
  | settingsView
deriving DecidableEq, Repr

/-- Severity tag of `Model.messageStyle`: the code only ever assigns
`successStyle` or `errorStyle` to it. -/
inductive Style where
  | successStyle
  | errorStyle
deriving DecidableEq, Repr

/-- Key events, by the strings `msg.String()` is compared against in
`Model.Update` and `inputForm.Update`.  `char c` stands for a printable
character delivered to the focused text input; `other` is any remaining
key string none of the switches match. -/
inductive Key where
  | ctrlC
  | q
  | esc
  | up
  | k
  | down
  | j
  | enter
  | tab
  | shiftTab
  | char (c : Char)
  | other
deriving DecidableEq, Repr

/-- Result of running one deferred operation closure.  Every closure in
the cli package ends in `return operationErrorMsg{...}` (parse failure or
failed remote call) or `return operationSuccessMsg{...}`; `loadingMsg` is
constructed nowhere in the repository. -/
inductive OpOutcome where
  | opErr (err : String)
  | opOk (text : String)
deriving DecidableEq, Repr

/-- Oracle for the Remote Operation Client: the outcome each remote call
would report in the current run.  `Except.error e` is a non-nil Go error
with text `e`; `Except.ok t` is a successful response already rendered to
the success text the closure would format from it. -/
structure ClientEnv where
  paymentDeposit : Except String String
  paymentWithdraw : Except String String
  paymentPrepare : Except String String
  paymentAuthorize : Except String String
  paymentVerifyAccess : Except String String
  poolGetBalance : Except String String
  poolDeposit : Except String String
  poolWithdraw : Except String String
  poolGetDepositAddress : Except String String
  tokenListSupported : Except String String
  tokenAdd : Except String String
  tokenUpdate : Except String String
  tokenRemove : Except String String
  merchantGetEarnings : Except String String
  merchantGetAnalytics : Except String String
  merchantWithdraw : Except String String
  privacyDecrypt : Except String String
  webhookRegister : Except String String
  webhookGetConfig : Except String String
  webhookTest : Except String String
  webhookGetLogs : Except String String
  webhookGetStats : Except String String
  webhookDeactivate : Except String String
  shadowAutoRegister : Except String String
  shadowRegister : Except String String
  shadowGetProof : Except String String
  shadowGetRoot : Except String String
  shadowGetStatus : Except String String
  authAuthorizeSpending : Except String String
  authListAuthorizations : Except String String
  authRevokeAuthorization : Except String String

/-- A `tea.Cmd` value actually produced by the cli package: `tea.Quit`,
or a deferred operation closure (one of the `perform...` bodies). -/
inductive Cmd where
  | quit
  | op (body : ClientEnv → OpOutcome)

/-- Recognizes `some Cmd.quit`, i.e. the process-termination command. -/
def isQuitCmd : Option Cmd → Bool
  | some .quit => true
  | some (.op _) => false
  | none => false

/-- Messages consumed by `Model.Update`: the three cli message structs
plus the two bubbletea runtime messages the switch handles. -/
inductive Msg where
  | operationSuccessMsg (message : String)
  | operationErrorMsg (err : String)
  | loadingMsg (message : String)
  | windowSizeMsg (width height : Int)
  | keyMsg (key : Key)

/-- Common tail of every operation closure: a failed remote call becomes
`operationErrorMsg{err}`, a successful one `operationSuccessMsg{...}`. -/
def ofCall : Except String String → OpOutcome
  | .error e => .opErr e
  | .ok t => .opOk t

/-- Exponent suffix of a Go decimal float literal: empty, or `e`/`E`,
optional sign, at least one digit. -/
def expPartOk : List Char → Bool
  | [] => true
  | c :: r =>
    if c == 'e' || c == 'E' then
      let t := match r with
        | '+' :: t => t
        | '-' :: t => t
        | t => t
      !t.isEmpty && t.all Char.isDigit
    else false

/-- Models success of `strconv.ParseFloat(s, 64)`: optional sign, then a
decimal mantissa with at least one digit and at most one dot, then an
optional exponent, or one of the special words inf/infinity/nan.  The
numeric value itself only feeds the abstracted request payload, so only
acceptance is modelled (hex float syntax and overflow are not). -/
def goParseFloatOk (s : String) : Bool :=
  let cs := match s.data with
    | '+' :: r => r
    | '-' :: r => r
    | r => r
  let lower := cs.map Char.toLower
  if lower == "inf".data || lower == "infinity".data || lower == "nan".data then
    true
  else
    let intPart := cs.takeWhile Char.isDigit
    match cs.dropWhile Char.isDigit with
    | '.' :: r =>
      (!intPart.isEmpty || !(r.takeWhile Char.isDigit).isEmpty)
        && expPartOk (r.dropWhile Char.isDigit)
    | r => !intPart.isEmpty && expPartOk r

/-- Models success of `strconv.Atoi`: optional sign then at least one
digit (int64 overflow is not modelled; the parsed value only feeds the
abstracted request payload). -/
def goAtoiOk (s : String) : Bool :=
  let cs := match s.data with
    | '+' :: r => r
    | '-' :: r => r
    | r => r
  !cs.isEmpty && cs.all Char.isDigit

/-!
Deferred operation bodies.  Each `perform...` function below is the body
of the closure the Go method of the same name returns: first the parse
steps the Go body performs on its string arguments (each bailing out with
`operationErrorMsg` on failure), then the remote call, whose outcome the
oracle supplies.  The Go error text wraps the underlying parse error
(`fmt.Errorf("invalid amount: %w", err)`); the embedding keeps the
prefix and abstracts the library error detail to the offending string.
-/

/-- Body of the closure returned by `Model.performPaymentDeposit`:
`strconv.ParseFloat` on the amount, bail out on failure, otherwise
`client.Payment.Deposit`. -/
def performPaymentDeposit (wallet amountStr : String) (env : ClientEnv) : OpOutcome :=
  if !goParseFloatOk amountStr then .opErr ("invalid amount: " ++ amountStr)
  else ofCall env.paymentDeposit

/-- Body of the closure returned by `Model.performPaymentWithdraw`. -/
def performPaymentWithdraw (wallet amountStr : String) (env : ClientEnv) : OpOutcome :=
  if !goParseFloatOk amountStr then .opErr ("invalid amount: " ++ amountStr)
  else ofCall env.paymentWithdraw

/-- Body of the closure returned by `Model.performPreparePayment`. -/
def performPreparePayment (commitment amountStr : String) (env : ClientEnv) : OpOutcome :=
  if !goParseFloatOk amountStr then .opErr ("invalid amount: " ++ amountStr)
  else ofCall env.paymentPrepare

/-- Body of the closure returned by `Model.performAuthorizePayment`. -/
def performAuthorizePayment (commitment nullifier amountStr merchant : String)
    (env : ClientEnv) : OpOutcome :=
  if !goParseFloatOk amountStr then .opErr ("invalid amount: " ++ amountStr)
  else ofCall env.paymentAuthorize

/-- Body of the closure returned by `Model.performVerifyAccess`. -/
def performVerifyAccess (token : String) (env : ClientEnv) : OpOutcome :=
  ofCall env.paymentVerifyAccess

/-- Body of the closure returned by `Model.performPoolBalance`. -/
def performPoolBalance (wallet : String) (env : ClientEnv) : OpOutcome :=
  ofCall env.poolGetBalance

/-- Body of the closure returned by `Model.performPoolDeposit`. -/
def performPoolDeposit (wallet amountStr : String) (env : ClientEnv) : OpOutcome :=
  if !goParseFloatOk amountStr then .opErr ("invalid amount: " ++ amountStr)
  else ofCall env.poolDeposit

/-- Body of the closure returned by `Model.performPoolWithdraw`. -/
def performPoolWithdraw (wallet amountStr : String) (env : ClientEnv) : OpOutcome :=
  if !goParseFloatOk amountStr then .opErr ("invalid amount: " ++ amountStr)
  else ofCall env.poolWithdraw

/-- Body of the closure returned by `Model.performGetDepositAddress`. -/
def performGetDepositAddress (env : ClientEnv) : OpOutcome :=
  ofCall env.poolGetDepositAddress

/-- Body of the closure returned by `Model.performListTokens`. -/
def performListTokens (env : ClientEnv) : OpOutcome :=
  ofCall env.tokenListSupported

/-- Body of the closure returned by `Model.performAddToken`:
`strconv.Atoi` on the decimals, bail out on failure, then
`client.Token.Add`. -/
def performAddToken (mint symbol decimalsStr : String) (env : ClientEnv) : OpOutcome :=
  if !goAtoiOk decimalsStr then .opErr ("invalid decimals: " ++ decimalsStr)
  else ofCall env.tokenAdd

/-- Body of the closure returned by `Model.performUpdateToken`: the
optional symbol/enabled fields only shape the request payload. -/
def performUpdateToken (mint symbol enabledStr : String) (env : ClientEnv) : OpOutcome :=
  ofCall env.tokenUpdate

/-- Body of the closure returned by `Model.performRemoveToken`. -/
def performRemoveToken (mint : String) (env : ClientEnv) : OpOutcome :=
  ofCall env.tokenRemove

/-- Body of the closure returned by `Model.performViewEarnings`. -/
def performViewEarnings (env : ClientEnv) : OpOutcome :=
  ofCall env.merchantGetEarnings

/-- Body of the closure returned by `Model.performGetAnalytics`: the two
date strings go into the request unvalidated. -/
def performGetAnalytics (startDate endDate : String) (env : ClientEnv) : OpOutcome :=
  ofCall env.merchantGetAnalytics

/-- Body of the closure returned by `Model.performWithdrawEarnings`. -/
def performWithdrawEarnings (amountStr destination : String) (env : ClientEnv) : OpOutcome :=
  if !goParseFloatOk amountStr then .opErr ("invalid amount: " ++ amountStr)
  else ofCall env.merchantWithdraw

/-- Body of the closure returned by `Model.performDecryptAmount`. -/
def performDecryptAmount (ciphertext privKey : String) (env : ClientEnv) : OpOutcome :=
  ofCall env.privacyDecrypt

/-- Body of the closure returned by `Model.performRegisterWebhook`: the
comma-splitting of the events string only shapes the request payload. -/
def performRegisterWebhook (url eventsStr secret : String) (env : ClientEnv) : OpOutcome :=
  ofCall env.webhookRegister

/-- Body of the closure returned by `Model.performGetWebhookConfig`. -/
def performGetWebhookConfig (env : ClientEnv) : OpOutcome :=
  ofCall env.webhookGetConfig

/-- Body of the closure returned by `Model.performTestWebhook`. -/
def performTestWebhook (webhookID event : String) (env : ClientEnv) : OpOutcome :=
  ofCall env.webhookTest

/-- Body of the closure returned by `Model.performViewLogs`: the lenient
limit parse (default 50, overridden only by a positive `Atoi` success)
only shapes the request payload and never fails the operation. -/
def performViewLogs (webhookID limitStr : String) (env : ClientEnv) : OpOutcome :=
  ofCall env.webhookGetLogs

/-- Body of the closure returned by `Model.performGetWebhookStats`. -/
def performGetWebhookStats (env : ClientEnv) : OpOutcome :=
  ofCall env.webhookGetStats

/-- Body of the closure returned by `Model.performDeactivateWebhook`. -/
def performDeactivateWebhook (webhookID : String) (env : ClientEnv) : OpOutcome :=
  ofCall env.webhookDeactivate

/-- Body of the closure returned by `Model.performAutoRegister`. -/
def performAutoRegister (wallet signature message : String) (env : ClientEnv) : OpOutcome :=
  ofCall env.shadowAutoRegister

/-- Body of the closure returned by `Model.performRegisterCommitment`. -/
def performRegisterCommitment (commitment : String) (env : ClientEnv) : OpOutcome :=
  ofCall env.shadowRegister

/-- Body of the closure returned by `Model.performGetProof`. -/
def performGetProof (commitment : String) (env : ClientEnv) : OpOutcome :=
  ofCall env.shadowGetProof

/-- Body of the closure returned by `Model.performGetTreeRoot`. -/
def performGetTreeRoot (env : ClientEnv) : OpOutcome :=
  ofCall env.shadowGetRoot

/-- Body of the closure returned by `Model.performCheckStatus`. -/
def performCheckStatus (commitment : String) (env : ClientEnv) : OpOutcome :=
  ofCall env.shadowGetStatus

/-- Body of the closure returned by `Model.performAuthorizeSpending`:
`strconv.Atoi` on the valid-days field, bail out on failure (the
computed expiry timestamp only shapes the request payload). -/
def performAuthorizeSpending (wallet service maxPerTx maxDaily validDays signature : String)
    (env : ClientEnv) : OpOutcome :=
  if !goAtoiOk validDays then .opErr ("invalid valid days: " ++ validDays)
  else ofCall env.authAuthorizeSpending

/-- Body of the closure returned by `Model.performListAuthorizations`. -/
def performListAuthorizations (wallet : String) (env : ClientEnv) : OpOutcome :=
  ofCall env.authListAuthorizations

/-- Body of the closure returned by `Model.performRevokeAuthorization`. -/
def performRevokeAuthorization (wallet service signature : String) (env : ClientEnv) : OpOutcome :=
  ofCall env.authRevokeAuthorization

/-!
Input Form Engine (`inputForm` in part_009).  A `textinput.Model` is
reduced to its behaviourally relevant parts: placeholder, current value,
and focused flag (`CharLimit` 156 is kept for character input).  The
focus-blink commands returned by `Focus()` and collected with
`tea.Batch` are pure presentation and are modelled as no command.
-/

/-- One text input of a form: the parts of `textinput.Model` the control
flow observes. -/
structure Field where
  placeholder : String
  value : String
  focused : Bool
deriving DecidableEq, Repr

/-- Focus-flag loop of `inputForm.Update` (`for i := 0; i <= len-1; i++`):
the field at index `fi` gets `Focus()`, every other one `Blur()`.  `i` is
the index of the first field of the remaining list. -/
def setFocusFlags (fi : Int) : Nat → List Field → List Field
  | _, [] => []
  | i, fld :: rest =>
    (if (i : Int) = fi then { fld with focused := true }
     else { fld with focused := false }) :: setFocusFlags fi (i + 1) rest

/-- Field-building loop of `newInputForm`: one empty input per label,
`CharLimit` 156, the one at index 0 focused. -/
def mkFields : Nat → List String → List Field
  | _, [] => []
  | i, field :: rest =>
    { placeholder := field, value := "", focused := i = 0 } :: mkFields (i + 1) rest

/-- The `inputForm` struct: title, inputs, focus index (a Go `int`), and
the submit callback (`cancelFunc` is never assigned in the source and is
omitted). -/
structure InputForm where
  title : String
  inputs : List Field
  focusIndex : Int
  submitFunc : List String → Option Cmd

/-- Translation of `newInputForm`. -/
def newInputForm (title : String) (fields : List String)
    (submitFunc : List String → Option Cmd) : InputForm :=
  { title := title
    inputs := mkFields 0 fields
    focusIndex := 0
    submitFunc := submitFunc }

/-- Models the external `textinput` collaborator hit by
`inputForm.updateInputs`: a printable character is appended to the
focused field's value, subject to the 156-character limit; any other
unhandled key leaves the fields unchanged. -/
def updateInputs (key : Key) (inputs : List Field) : List Field :=
  match key with
  | .char c =>
    inputs.map fun fld =>
      if fld.focused && fld.value.length < 156 then { fld with value := fld.value.push c }
      else fld
  | _ => inputs

/-- Post-increment wraparound of `inputForm.Update`: an index past the
last field wraps to 0, one before the first wraps to the last. -/
def wrapFocus (n fi0 : Int) : Int :=
  if fi0 > n - 1 then 0
  else if fi0 < 0 then n - 1
  else fi0

/-- Translation of `inputForm.Update` (pointer receiver, so the updated
form is returned alongside the `tea.Cmd`).  Enter on the last field
collects every field's value in declaration order and returns the submit
callback's command; the other navigation keys move the focus with
post-hoc wraparound; everything else goes to the text inputs. -/
def InputForm.Update (f : InputForm) (key : Key) : InputForm × Option Cmd :=
  if key = .tab ∨ key = .shiftTab ∨ key = .enter ∨ key = .up ∨ key = .down then
    if key = .enter ∧ f.focusIndex = (f.inputs.length : Int) - 1 then
      (f, f.submitFunc (f.inputs.map Field.value))
    else
      let fi0 := if key = .up ∨ key = .shiftTab then f.focusIndex - 1 else f.focusIndex + 1
      let fi := wrapFocus (f.inputs.length : Int) fi0
      ({ f with focusIndex := fi, inputs := setFocusFlags fi 0 f.inputs }, none)
  else
    ({ f with inputs := updateInputs key f.inputs }, none)

/-!
View Router / Model (part_008).  The `client *shadowpay.ShadowPay`
pointer is observed only through its nil test, embedded as `clientSet`;
the remote calls themselves live in the command bodies above.  `ctx`,
the never-assigned sub-model pointers, and the render functions are
presentation/bootstrap and are omitted.
-/

/-- The `Model` struct: the fields the update step reads or writes. -/
structure Model where
  clientSet : Bool
  currentView : View
  cursor : Int
  apiKey : String
  width : Int
  height : Int
  message : String
  messageStyle : Style
  loading : Bool
  loadingMsg : String
  showingInput : Bool
  inputForm : InputForm

/-- Translation of `NewModel`: the client is created only when the API
key is non-empty; the remaining fields get their Go zero values (the
zero `inputForm` has a nil submit callback, modelled as constantly `nil`;
it is unreachable while `showingInput` is false). -/
def NewModel (apiKey : String) : Model :=
  { clientSet := apiKey ≠ ""
    currentView := .mainMenuView
    cursor := 0
    apiKey := apiKey
    width := 0
    height := 0
    message := ""
    messageStyle := .successStyle
    loading := false
    loadingMsg := ""
    showingInput := false
    inputForm := { title := "", inputs := [], focusIndex := 0, submitFunc := fun _ => none } }

/-- Translation of `Model.getMaxCursor`: 8 for the main menu (9 items),
a blanket 5 for every other view. -/
def Model.getMaxCursor (m : Model) : Int :=
  match m.currentView with
  | .mainMenuView => 8
  | _ => 5

/-!
Form-opening helpers (`show...Form`).  Each builds an `inputForm` whose
submit callback hands the collected values, positionally, to the matching
`perform...` body, sets `showingInput`, and returns no command.  Go
indexes `values[i]`; the engine supplies exactly one value per field, so
the embedding reads positions with an empty-string default.
-/

/-- Translation of `Model.showDepositForm`. -/
def Model.showDepositForm (m : Model) : Model × Option Cmd :=
  ({ m with
      inputForm := newInputForm "💸 Deposit to Payment Account"
        [ "Wallet Address", "Amount (SOL)" ]
        (fun values => some (.op (performPaymentDeposit (values.getD 0 "") (values.getD 1 ""))))
      showingInput := true }, none)

/-- Translation of `Model.showWithdrawForm`. -/
def Model.showWithdrawForm (m : Model) : Model × Option Cmd :=
  ({ m with
      inputForm := newInputForm "📤 Withdraw from Payment Account"
        [ "Wallet Address", "Amount (SOL)" ]
        (fun values => some (.op (performPaymentWithdraw (values.getD 0 "") (values.getD 1 ""))))
      showingInput := true }, none)

/-- Translation of `Model.showPreparePaymentForm`. -/
def Model.showPreparePaymentForm (m : Model) : Model × Option Cmd :=
  ({ m with
      inputForm := newInputForm "🔐 Prepare ZK Payment"
        [ "Receiver Commitment", "Amount (SOL)" ]
        (fun values => some (.op (performPreparePayment (values.getD 0 "") (values.getD 1 ""))))
      showingInput := true }, none)

/-- Translation of `Model.showAuthorizePaymentForm`. -/
def Model.showAuthorizePaymentForm (m : Model) : Model × Option Cmd :=
  ({ m with
      inputForm := newInputForm "✅ Authorize Payment"
        [ "Commitment", "Nullifier", "Amount (SOL)", "Merchant Wallet" ]
        (fun values => some (.op (performAuthorizePayment (values.getD 0 "") (values.getD 1 "")
          (values.getD 2 "") (values.getD 3 ""))))
      showingInput := true }, none)

/-- Translation of `Model.showVerifyAccessForm`. -/
def Model.showVerifyAccessForm (m : Model) : Model × Option Cmd :=
  ({ m with
      inputForm := newInputForm "🔍 Verify Access Token"
        [ "Access Token" ]
        (fun values => some (.op (performVerifyAccess (values.getD 0 ""))))
      showingInput := true }, none)

/-- Translation of `Model.showPoolBalanceForm`. -/
def Model.showPoolBalanceForm (m : Model) : Model × Option Cmd :=
  ({ m with
      inputForm := newInputForm "💰 Check Pool Balance"
        [ "Wallet Address" ]
        (fun values => some (.op (performPoolBalance (values.getD 0 ""))))
      showingInput := true }, none)

/-- Translation of `Model.showPoolDepositForm`. -/
def Model.showPoolDepositForm (m : Model) : Model × Option Cmd :=
  ({ m with
      inputForm := newInputForm "💰 Deposit to Pool"
        [ "Wallet Address", "Amount (SOL)" ]
        (fun values => some (.op (performPoolDeposit (values.getD 0 "") (values.getD 1 ""))))
      showingInput := true }, none)

/-- Translation of `Model.showPoolWithdrawForm`. -/
def Model.showPoolWithdrawForm (m : Model) : Model × Option Cmd :=
  ({ m with
      inputForm := newInputForm "📤 Withdraw from Pool"
        [ "Wallet Address", "Amount (SOL)" ]
        (fun values => some (.op (performPoolWithdraw (values.getD 0 "") (values.getD 1 ""))))
      showingInput := true }, none)

/-- Translation of `Model.showAddTokenForm`. -/
def Model.showAddTokenForm (m : Model) : Model × Option Cmd :=
  ({ m with
      inputForm := newInputForm "➕ Add Token"
        [ "Mint Address", "Symbol", "Decimals" ]
        (fun values => some (.op (performAddToken (values.getD 0 "") (values.getD 1 "")
          (values.getD 2 ""))))
      showingInput := true }, none)

/-- Translation of `Model.showUpdateTokenForm`. -/
def Model.showUpdateTokenForm (m : Model) : Model × Option Cmd :=
  ({ m with
      inputForm := newInputForm "✏️ Update Token"
        [ "Mint Address", "New Symbol (optional)", "Enabled (true/false)" ]
        (fun values => some (.op (performUpdateToken (values.getD 0 "") (values.getD 1 "")
          (values.getD 2 ""))))
      showingInput := true }, none)

/-- Translation of `Model.showRemoveTokenForm`. -/
def Model.showRemoveTokenForm (m : Model) : Model × Option Cmd :=
  ({ m with
      inputForm := newInputForm "🗑️ Remove Token"
        [ "Mint Address" ]
        (fun values => some (.op (performRemoveToken (values.getD 0 ""))))
      showingInput := true }, none)

/-- Translation of `Model.showGetAnalyticsForm`. -/
def Model.showGetAnalyticsForm (m : Model) : Model × Option Cmd :=
  ({ m with
      inputForm := newInputForm "📊 Get Analytics"
        [ "Start Date (YYYY-MM-DD, optional)", "End Date (YYYY-MM-DD, optional)" ]
        (fun values => some (.op (performGetAnalytics (values.getD 0 "") (values.getD 1 ""))))
      showingInput := true }, none)

/-- Translation of `Model.showWithdrawEarningsForm`. -/
def Model.showWithdrawEarningsForm (m : Model) : Model × Option Cmd :=
  ({ m with
      inputForm := newInputForm "📤 Withdraw Earnings"
        [ "Amount (SOL)", "Destination Wallet" ]
        (fun values => some (.op (performWithdrawEarnings (values.getD 0 "") (values.getD 1 ""))))
      showingInput := true }, none)

/-- Translation of `Model.showDecryptAmountForm`. -/
def Model.showDecryptAmountForm (m : Model) : Model × Option Cmd :=
  ({ m with
      inputForm := newInputForm "🔓 Decrypt Amount"
        [ "Encrypted Ciphertext (hex)", "Private Key (hex)" ]
        (fun values => some (.op (performDecryptAmount (values.getD 0 "") (values.getD 1 ""))))
      showingInput := true }, none)

/-- Translation of `Model.showRegisterWebhookForm`. -/
def Model.showRegisterWebhookForm (m : Model) : Model × Option Cmd :=
  ({ m with
      inputForm := newInputForm "➕ Register Webhook"
        [ "Webhook URL (https://...)", "Events (comma-separated)", "Secret (optional)" ]
        (fun values => some (.op (performRegisterWebhook (values.getD 0 "") (values.getD 1 "")
          (values.getD 2 ""))))
      showingInput := true }, none)

/-- Translation of `Model.showTestWebhookForm`. -/
def Model.showTestWebhookForm (m : Model) : Model × Option Cmd :=
  ({ m with
      inputForm := newInputForm "🧪 Test Webhook"
        [ "Webhook ID (optional)", "Event Type (optional)" ]
        (fun values => some (.op (performTestWebhook (values.getD 0 "") (values.getD 1 ""))))
      showingInput := true }, none)

/-- Translation of `Model.showViewLogsForm`. -/
def Model.showViewLogsForm (m : Model) : Model × Option Cmd :=
  ({ m with
      inputForm := newInputForm "📜 View Webhook Logs"
        [ "Webhook ID (optional)", "Limit (default 50)" ]
        (fun values => some (.op (performViewLogs (values.getD 0 "") (values.getD 1 ""))))
      showingInput := true }, none)

/-- Translation of `Model.showDeactivateWebhookForm`. -/
def Model.showDeactivateWebhookForm (m : Model) : Model × Option Cmd :=
  ({ m with
      inputForm := newInputForm "🚫 Deactivate Webhook"
        [ "Webhook ID" ]
        (fun values => some (.op (performDeactivateWebhook (values.getD 0 ""))))
      showingInput := true }, none)

/-- Translation of `Model.showAutoRegisterForm`. -/
def Model.showAutoRegisterForm (m : Model) : Model × Option Cmd :=
  ({ m with
      inputForm := newInputForm "✅ Auto Register ShadowID"
        [ "Wallet Address", "Signature (base58)", "Message" ]
        (fun values => some (.op (performAutoRegister (values.getD 0 "") (values.getD 1 "")
          (values.getD 2 ""))))
      showingInput := true }, none)

/-- Translation of `Model.showRegisterCommitmentForm`. -/
def Model.showRegisterCommitmentForm (m : Model) : Model × Option Cmd :=
  ({ m with
      inputForm := newInputForm "📝 Register Commitment"
        [ "Poseidon Hash Commitment" ]
        (fun values => some (.op (performRegisterCommitment (values.getD 0 ""))))
      showingInput := true }, none)

/-- Translation of `Model.showGetProofForm`. -/
def Model.showGetProofForm (m : Model) : Model × Option Cmd :=
  ({ m with
      inputForm := newInputForm "🔍 Get Merkle Proof"
        [ "Commitment" ]
        (fun values => some (.op (performGetProof (values.getD 0 ""))))
      showingInput := true }, none)

/-- Translation of `Model.showCheckStatusForm`. -/
def Model.showCheckStatusForm (m : Model) : Model × Option Cmd :=
  ({ m with
      inputForm := newInputForm "📋 Check Registration Status"
        [ "Commitment" ]
        (fun values => some (.op (performCheckStatus (values.getD 0 ""))))
      showingInput := true }, none)

/-- Translation of `Model.showAuthorizeSpendingForm`. -/
def Model.showAuthorizeSpendingForm (m : Model) : Model × Option Cmd :=
  ({ m with
      inputForm := newInputForm "✅ Authorize Bot Spending"
        [ "User Wallet", "Authorized Service", "Max Per Tx (SOL)", "Max Daily (SOL)",
          "Valid Until (days from now)", "User Signature (base58)" ]
        (fun values => some (.op (performAuthorizeSpending (values.getD 0 "") (values.getD 1 "")
          (values.getD 2 "") (values.getD 3 "") (values.getD 4 "") (values.getD 5 ""))))
      showingInput := true }, none)

/-- Translation of `Model.showListAuthorizationsForm`. -/
def Model.showListAuthorizationsForm (m : Model) : Model × Option Cmd :=
  ({ m with
      inputForm := newInputForm "📋 List Authorizations"
        [ "Wallet Address" ]
        (fun values => some (.op (performListAuthorizations (values.getD 0 ""))))
      showingInput := true }, none)

/-- Translation of `Model.showRevokeAuthorizationForm`. -/
def Model.showRevokeAuthorizationForm (m : Model) : Model × Option Cmd :=
  ({ m with
      inputForm := newInputForm "🚫 Revoke Authorization"
        [ "User Wallet", "Authorized Service", "User Signature (base58)" ]
        (fun values => some (.op (performRevokeAuthorization (values.getD 0 "") (values.getD 1 "")
          (values.getD 2 ""))))
      showingInput := true }, none)

/-!
Sub-view selection handlers (`handle...Selection`): a `switch m.cursor`
whose cases open a form, return a deferred operation directly, set a
status message, or (for the final Back item) return to the main menu
with the cursor reset.  A cursor outside the handled cases falls through
to `return nil` with the model unchanged.
-/

/-- Translation of `Model.handlePaymentSelection`. -/
def Model.handlePaymentSelection (m : Model) : Model × Option Cmd :=
  if m.cursor = 0 then m.showDepositForm
  else if m.cursor = 1 then m.showWithdrawForm
  else if m.cursor = 2 then m.showPreparePaymentForm
  else if m.cursor = 3 then m.showAuthorizePaymentForm
  else if m.cursor = 4 then m.showVerifyAccessForm
  else if m.cursor = 5 then
    ({ m with message := "Settle is complex - requires x402 payload. Use API directly.",
              messageStyle := .errorStyle }, none)
  else if m.cursor = 6 then
    ({ m with currentView := .mainMenuView, cursor := 0 }, none)
  else (m, none)

/-- Translation of `Model.handlePoolSelection`. -/
def Model.handlePoolSelection (m : Model) : Model × Option Cmd :=
  if m.cursor = 0 then m.showPoolBalanceForm
  else if m.cursor = 1 then m.showPoolDepositForm
  else if m.cursor = 2 then m.showPoolWithdrawForm
  else if m.cursor = 3 then (m, some (.op performGetDepositAddress))
  else if m.cursor = 4 then
    ({ m with currentView := .mainMenuView, cursor := 0 }, none)
  else (m, none)

/-- Translation of `Model.handleTokenSelection`. -/
def Model.handleTokenSelection (m : Model) : Model × Option Cmd :=
  if m.cursor = 0 then (m, some (.op performListTokens))
  else if m.cursor = 1 then m.showAddTokenForm
  else if m.cursor = 2 then m.showUpdateTokenForm
  else if m.cursor = 3 then m.showRemoveTokenForm
  else if m.cursor = 4 then
    ({ m with currentView := .mainMenuView, cursor := 0 }, none)
  else (m, none)

/-- Translation of `Model.handleMerchantSelection`. -/
def Model.handleMerchantSelection (m : Model) : Model × Option Cmd :=
  if m.cursor = 0 then (m, some (.op performViewEarnings))
  else if m.cursor = 1 then m.showGetAnalyticsForm
  else if m.cursor = 2 then m.showWithdrawEarningsForm
  else if m.cursor = 3 then m.showDecryptAmountForm
  else if m.cursor = 4 then
    ({ m with currentView := .mainMenuView, cursor := 0 }, none)
  else (m, none)

/-- Translation of `Model.handleWebhookSelection`. -/
def Model.handleWebhookSelection (m : Model) : Model × Option Cmd :=
  if m.cursor = 0 then m.showRegisterWebhookForm
  else if m.cursor = 1 then (m, some (.op performGetWebhookConfig))
  else if m.cursor = 2 then m.showTestWebhookForm
  else if m.cursor = 3 then m.showViewLogsForm
  else if m.cursor = 4 then (m, some (.op performGetWebhookStats))
  else if m.cursor = 5 then m.showDeactivateWebhookForm
  else if m.cursor = 6 then
    ({ m with currentView := .mainMenuView, cursor := 0 }, none)
  else (m, none)

/-- Translation of `Model.handleShadowIDSelection`. -/
def Model.handleShadowIDSelection (m : Model) : Model × Option Cmd :=
  if m.cursor = 0 then m.showAutoRegisterForm
  else if m.cursor = 1 then m.showRegisterCommitmentForm
  else if m.cursor = 2 then m.showGetProofForm
  else if m.cursor = 3 then (m, some (.op performGetTreeRoot))
  else if m.cursor = 4 then m.showCheckStatusForm
  else if m.cursor = 5 then
    ({ m with currentView := .mainMenuView, cursor := 0 }, none)
  else (m, none)

/-- Translation of `Model.handleAuthorizationSelection`. -/
def Model.handleAuthorizationSelection (m : Model) : Model × Option Cmd :=
  if m.cursor = 0 then m.showAuthorizeSpendingForm
  else if m.cursor = 1 then m.showListAuthorizationsForm
  else if m.cursor = 2 then m.showRevokeAuthorizationForm
  else if m.cursor = 3 then
    ({ m with currentView := .mainMenuView, cursor := 0 }, none)
  else (m, none)

/-- Shared body of the seven connectivity-gated main-menu cases of
`Model.handleEnter`: with no client configured, set the error status and
stay; otherwise enter the target sub-view with the cursor reset and the
status message cleared. -/
def Model.enterGated (m : Model) (target : View) : Model × Option Cmd :=
  if !m.clientSet then
    ({ m with message := "Please set API key in Settings first",
              messageStyle := .errorStyle }, none)
  else
    ({ m with currentView := target, cursor := 0, message := "" }, none)

/-- Translation of `Model.handleEnter`: in the main menu, a `switch
m.cursor` over the nine items (0-6 connectivity-gated sub-views, 7 the
ungated Settings view, 8 `tea.Quit`); in a sub-view, dispatch to that
view's selection handler (the settings view has none). -/
def Model.handleEnter (m : Model) : Model × Option Cmd :=
  if m.currentView = .mainMenuView then
    if m.cursor = 0 then m.enterGated .paymentView
    else if m.cursor = 1 then m.enterGated .poolView
    else if m.cursor = 2 then m.enterGated .tokenView
    else if m.cursor = 3 then m.enterGated .authorizationView
    else if m.cursor = 4 then m.enterGated .merchantView
    else if m.cursor = 5 then m.enterGated .webhookView
    else if m.cursor = 6 then m.enterGated .shadowIDView
    else if m.cursor = 7 then
      ({ m with currentView := .settingsView, cursor := 0, message := "" }, none)
    else if m.cursor = 8 then (m, some .quit)
    else (m, none)
  else
    match m.currentView with
    | .paymentView => m.handlePaymentSelection
    | .poolView => m.handlePoolSelection
    | .tokenView => m.handleTokenSelection
    | .authorizationView => m.handleAuthorizationSelection
    | .merchantView => m.handleMerchantSelection
    | .webhookView => m.handleWebhookSelection
    | .shadowIDView => m.handleShadowIDSelection
    | _ => (m, none)

/-- Translation of `Model.Update`, the single state-transition step.
While a form is showing, ctrl+c quits, esc discards the form, and every
other key is delegated to `inputForm.Update`; otherwise q/ctrl+c and esc
navigate back or quit, up/k and down/j move the cursor clamped to
`[0, getMaxCursor]`, and enter dispatches to `handleEnter`.  Completed
operations clear the loading and form flags and set the status message
with the matching severity; `loadingMsg` raises the loading flag;
`tea.WindowSizeMsg` stores the dimensions. -/
def Model.Update (m : Model) (msg : Msg) : Model × Option Cmd :=
  match msg with
  | .windowSizeMsg w h => ({ m with width := w, height := h }, none)
  | .operationSuccessMsg text =>
    ({ m with loading := false, showingInput := false,
              message := text, messageStyle := .successStyle }, none)
  | .operationErrorMsg e =>
    ({ m with loading := false, showingInput := false,
              message := "Error: " ++ e, messageStyle := .errorStyle }, none)
  | .loadingMsg text =>
    ({ m with loading := true, loadingMsg := text }, none)
  | .keyMsg key =>
    if m.showingInput then
      if key = .ctrlC then (m, some .quit)
      else if key = .esc then ({ m with showingInput := false, message := "" }, none)
      else
        let fc := m.inputForm.Update key
        ({ m with inputForm := fc.1 }, fc.2)
    else
      if key = .ctrlC ∨ key = .q then
        if m.currentView = .mainMenuView then (m, some .quit)
        else ({ m with currentView := .mainMenuView, message := "" }, none)
      else if key = .esc then
        if m.currentView ≠ .mainMenuView then
          ({ m with currentView := .mainMenuView, message := "" }, none)
        else (m, none)
      else if key = .up ∨ key = .k then
        ((if m.cursor > 0 then { m with cursor := m.cursor - 1 } else m), none)
      else if key = .down ∨ key = .j then
        ((if m.cursor < m.getMaxCursor then { m with cursor := m.cursor + 1 } else m), none)
      else if key = .enter then m.handleEnter
      else (m, none)

/-- Menu item list of each view, exactly as rendered by the matching
`render...View` function of part_008 (the settings view renders
instructions, not a menu). -/
def menuItems : View → List String
  | .mainMenuView =>
    [ "💸 ZK Payments", "🏊 Privacy Pool", "🪙 Token Management", "🤖 Bot Authorization",
      "💰 Merchant Tools", "🔔 Webhooks", "👤 ShadowID", "⚙️  Settings", "🚪 Exit" ]
  | .paymentView =>
    [ "📥 Deposit Funds", "📤 Withdraw Funds", "🔐 Prepare Payment", "✅ Authorize Payment",
      "🔍 Verify Access", "⚡ Settle Payment", "◀ Back" ]
  | .poolView =>
    [ "💰 Check Balance", "📥 Deposit to Pool", "📤 Withdraw from Pool",
      "📍 Get Deposit Address", "◀ Back" ]
  | .tokenView =>
    [ "📋 List Supported Tokens", "➕ Add New Token", "✏️  Update Token",
      "🗑️  Remove Token", "◀ Back" ]
  | .authorizationView =>
    [ "✅ Authorize Bot Spending", "📋 List Authorizations", "🚫 Revoke Authorization",
      "◀ Back" ]
  | .merchantView =>
    [ "💵 View Earnings", "📊 Get Analytics", "📤 Withdraw Earnings", "🔓 Decrypt Amount",
      "◀ Back" ]
  | .webhookView =>
    [ "➕ Register Webhook", "📋 Get Configuration", "🧪 Test Webhook", "📜 View Logs",
      "📊 Get Stats", "🚫 Deactivate Webhook", "◀ Back" ]
  | .shadowIDView =>
    [ "✅ Auto Register", "📝 Register Commitment", "🔍 Get Proof", "🌳 Get Tree Root",
      "📋 Check Status", "◀ Back" ]
  | .settingsView => []

/-- Number of menu items the view displays. -/
def itemCount (v : View) : Nat := (menuItems v).length

/-- Message a completed operation delivers: failed runs become
`operationErrorMsg`, successful ones `operationSuccessMsg`. -/
def OpOutcome.toMsg : OpOutcome → Msg
  | .opErr e => .operationErrorMsg e
  | .opOk t => .operationSuccessMsg t

/-- Messages the bubbletea runtime can deliver to `Model.Update`: raw
key events, terminal resizes, and the completion message of a deferred
operation closure run against some client outcome.  `tea.Quit` ends the
program instead of producing a model message, and the focus-blink
commands of the text inputs produce only messages `Model.Update`
ignores, so neither contributes a further case. -/
inductive Deliverable : Msg → Prop where
  | keyEvent (key : Key) : Deliverable (.keyMsg key)
  | resize (w h : Int) : Deliverable (.windowSizeMsg w h)
  | opResult (body : ClientEnv → OpOutcome) (env : ClientEnv) :
      Deliverable (OpOutcome.toMsg (body env))

/-- States of the single-threaded message loop: the initial model for
some API key, closed under delivery of one deliverable message. -/
inductive Reachable : Model → Prop where
  | init (apiKey : String) : Reachable (NewModel apiKey)
  | step {m : Model} (msg : Msg) : Reachable m → Deliverable msg →
      Reachable (m.Update msg).1

/-- Folds a list of key events through the update step, keeping the
resulting model (commands returned along the way are scheduled off the
loop and do not feed back synchronously). -/
def runKeys (m : Model) (keys : List Key) : Model :=
  keys.foldl (fun m key => (m.Update (.keyMsg key)).1) m

/-- Index of the final Back item in each sub-view's selection handler
(the case of `handle...Selection` that returns to the main menu). -/
def backIndex : View → Option Int
  | .paymentView => some 6
  | .poolView => some 4
  | .tokenView => some 4
  | .authorizationView => some 3
  | .merchantView => some 4
  | .webhookView => some 6
  | .shadowIDView => some 5
  | _ => none

/-- Concrete Remote Operation Client oracle in which every call
succeeds, used to evaluate command bodies at concrete inputs. -/
def envAllOk : ClientEnv :=
  { paymentDeposit := .ok "ok", paymentWithdraw := .ok "ok", paymentPrepare := .ok "ok"
    paymentAuthorize := .ok "ok", paymentVerifyAccess := .ok "ok", poolGetBalance := .ok "ok"
    poolDeposit := .ok "ok", poolWithdraw := .ok "ok", poolGetDepositAddress := .ok "ok"
    tokenListSupported := .ok "ok", tokenAdd := .ok "ok", tokenUpdate := .ok "ok"
    tokenRemove := .ok "ok", merchantGetEarnings := .ok "ok", merchantGetAnalytics := .ok "ok"
    merchantWithdraw := .ok "ok", privacyDecrypt := .ok "ok", webhookRegister := .ok "ok"
    webhookGetConfig := .ok "ok", webhookTest := .ok "ok", webhookGetLogs := .ok "ok"
    webhookGetStats := .ok "ok", webhookDeactivate := .ok "ok", shadowAutoRegister := .ok "ok"
    shadowRegister := .ok "ok", shadowGetProof := .ok "ok", shadowGetRoot := .ok "ok"
    shadowGetStatus := .ok "ok", authAuthorizeSpending := .ok "ok"
    authListAuthorizations := .ok "ok", authRevokeAuthorization := .ok "ok" }

/-- An input form submitting `Cmd.quit` is never built: the submit
callback of every form the model creates wraps a `perform...` body. -/
def submitNeverQuits (f : InputForm) : Prop :=
  ∀ values, isQuitCmd (f.submitFunc values) = false

/-- Fold of the form update over a list of key events, keeping the form. -/
def foldForm (f : InputForm) (keys : List Key) : InputForm :=
  keys.foldl (fun f key => (f.Update key).1) f

/-!
Theorems.  Each claim of the specification is settled by exactly one
theorem below (with a witness instantiation when the theorem carries
hypotheses, and a concrete counterexample where the claim fails on the
code).
-/

/-- C4: delivering an `operationSuccessMsg` or `operationErrorMsg` always
clears both the loading flag and the form flag, sets the status message
text with the matching severity style, and leaves the current view
unchanged. -/
theorem operation_result_clears_flags_and_keeps_view (m : Model) (text err : String) :
    ((m.Update (.operationSuccessMsg text)).1.loading = false ∧
     (m.Update (.operationSuccessMsg text)).1.showingInput = false ∧
     (m.Update (.operationSuccessMsg text)).1.message = text ∧
     (m.Update (.operationSuccessMsg text)).1.messageStyle = .successStyle ∧
     (m.Update (.operationSuccessMsg text)).1.currentView = m.currentView) ∧
    ((m.Update (.operationErrorMsg err)).1.loading = false ∧
     (m.Update (.operationErrorMsg err)).1.showingInput = false ∧
     (m.Update (.operationErrorMsg err)).1.message = "Error: " ++ err ∧
     (m.Update (.operationErrorMsg err)).1.messageStyle = .errorStyle ∧
     (m.Update (.operationErrorMsg err)).1.currentView = m.currentView) := by
  simp [Model.Update]

/-- C6: with focus on the last field, the confirm key returns the submit
callback applied to exactly one value per field, in declaration order,
each value being that field's current text. -/
theorem form_submit_collects_all_values (f : InputForm)
    (hN : 0 < f.inputs.length)
    (hfoc : f.focusIndex = (f.inputs.length : Int) - 1) :
    (f.Update .enter).2 = f.submitFunc (f.inputs.map Field.value) ∧
    (f.inputs.map Field.value).length = f.inputs.length := by
  simp [InputForm.Update, hfoc]

/-- Closed instantiation of `form_submit_collects_all_values` at a
one-field form. -/
theorem form_submit_collects_all_values_witness :
    ((newInputForm "t" [ "a" ] (fun _ => none)).Update .enter).2
      = (newInputForm "t" [ "a" ] (fun _ => none)).submitFunc
          ((newInputForm "t" [ "a" ] (fun _ => none)).inputs.map Field.value) ∧
    ((newInputForm "t" [ "a" ] (fun _ => none)).inputs.map Field.value).length
      = (newInputForm "t" [ "a" ] (fun _ => none)).inputs.length :=
  form_submit_collects_all_values _ (by decide) (by decide)

/-- C9 counterexample: for the unparsable amount "abc" the deposit
form's submit callback still creates a Command (the claim places the
detection before any Command is created); running that command's body
yields the error even when every remote call would succeed. -/
theorem invalid_amount_still_creates_command :
    goParseFloatOk "abc" = false ∧
    ((runKeys (NewModel "key") [ .enter, .enter ]).inputForm.submitFunc
        [ "w", "abc" ]).isSome = true ∧
    performPaymentDeposit "w" "abc" envAllOk = .opErr ("invalid amount: " ++ "abc") := by
  decide

/-- C9 amended: an unparsable amount is detected inside the body of the
Command the submit callback returns: the body reports the parse failure
as an immediate error outcome, independent of every Remote Operation
Client response (no network call is consulted). -/
theorem invalid_amount_detected_in_command_body (wallet s : String) (env env' : ClientEnv)
    (h : goParseFloatOk s = false) :
    performPaymentDeposit wallet s env = .opErr ("invalid amount: " ++ s) ∧
    performPaymentDeposit wallet s env = performPaymentDeposit wallet s env' := by
  simp [performPaymentDeposit, h]

/-- Closed instantiation of `invalid_amount_detected_in_command_body` at
the input "abc" and two oracles that differ on the deposit call. -/
theorem invalid_amount_detected_in_command_body_witness :
    performPaymentDeposit "w" "abc" envAllOk = .opErr ("invalid amount: " ++ "abc") ∧
    performPaymentDeposit "w" "abc" envAllOk
      = performPaymentDeposit "w" "abc" { envAllOk with paymentDeposit := .error "boom" } :=
  invalid_amount_detected_in_command_body "w" "abc" _ _ (by decide)

/-- C2 counterexample: with the deposit form active and focus on the
last field, the confirm key returns a command (the engine reported
submit) but the resulting model still has the form flag set and the form
retained, contradicting the claim that submit clears "form active". -/
theorem submit_keeps_form_active :
    (runKeys (NewModel "key") [ .enter, .enter, .enter ]).showingInput = true ∧
    (runKeys (NewModel "key") [ .enter, .enter, .enter ]).inputForm.focusIndex = 1 ∧
    (runKeys (NewModel "key") [ .enter, .enter, .enter ]).inputForm.inputs.length = 2 ∧
    ((runKeys (NewModel "key") [ .enter, .enter, .enter ]).Update (.keyMsg .enter)).2.isSome
      = true ∧
    ((runKeys (NewModel "key") [ .enter, .enter, .enter ]).Update
        (.keyMsg .enter)).1.showingInput = true := by
  decide

/-- C2 amended: when a form is active and the update step processes the
confirm key with focus on the last field, the returned command is the
one produced by the submit callback on the collected values (in field
order), but the model is unchanged: the form stays active and is
discarded only when the operation's success or error message is later
delivered (or on cancel). -/
theorem update_submit_returns_callback_command (m : Model)
    (hshow : m.showingInput = true)
    (hfoc : m.inputForm.focusIndex = (m.inputForm.inputs.length : Int) - 1) :
    m.Update (.keyMsg .enter)
      = (m, m.inputForm.submitFunc (m.inputForm.inputs.map Field.value)) := by
  simp [Model.Update, InputForm.Update, hshow, hfoc]
  rw [← hshow]

/-- Closed instantiation of `update_submit_returns_callback_command` at
the deposit form reached from the initial model. -/
theorem update_submit_returns_callback_command_witness :
    (runKeys (NewModel "key") [ .enter, .enter, .enter ]).Update (.keyMsg .enter)
      = (runKeys (NewModel "key") [ .enter, .enter, .enter ],
         (runKeys (NewModel "key") [ .enter, .enter, .enter ]).inputForm.submitFunc
           ((runKeys (NewModel "key") [ .enter, .enter, .enter ]).inputForm.inputs.map
             Field.value)) :=
  update_submit_returns_callback_command _ (by decide) (by decide)

/-- C1: evaluation of the update step at the failing input: starting
from the initial model with a client, three down events and confirm
enter the Bot Authorization view (4 menu items), and four further down
events drive the cursor to 4, outside `[0, itemCount-1] = [0, 3]` —
`getMaxCursor` returns a blanket 5 for every sub-view, contradicting the
per-view menus the same file renders. -/
theorem cursor_escapes_authorization_menu :
    (runKeys (NewModel "key")
        [ .down, .down, .down, .enter, .down, .down, .down, .down ]).currentView
      = View.authorizationView ∧
    (runKeys (NewModel "key")
        [ .down, .down, .down, .enter, .down, .down, .down, .down ]).cursor = 4 ∧
    itemCount .authorizationView = 4 ∧
    ¬ ((runKeys (NewModel "key")
        [ .down, .down, .down, .enter, .down, .down, .down, .down ]).cursor
      ≤ (itemCount .authorizationView : Int) - 1) := by
  decide

/-- C3 counterexample: with the deposit form active (a reachable state,
shown by the evaluated run), the ctrl+c key event returns the quit
command even though the current view is not MainMenu and a form is
active. -/
theorem ctrl_c_quits_while_form_active :
    (runKeys (NewModel "key") [ .enter, .enter ]).showingInput = true ∧
    (runKeys (NewModel "key") [ .enter, .enter ]).currentView = View.paymentView ∧
    isQuitCmd ((runKeys (NewModel "key") [ .enter, .enter ]).Update (.keyMsg .ctrlC)).2
      = true := by
  decide

/-- C8 counterexample: from the ZK Payments view with the cursor at 2,
the cancel key transitions back to MainMenu but leaves the cursor at 2,
contradicting the claim that every view-changing update step leaves the
cursor equal to 0. -/
theorem esc_from_subview_keeps_cursor :
    (runKeys (NewModel "key") [ .enter, .down, .down ]).currentView = View.paymentView ∧
    (runKeys (NewModel "key") [ .enter, .down, .down ]).cursor = 2 ∧
    (runKeys (NewModel "key") [ .enter, .down, .down, .esc ]).currentView
      = View.mainMenuView ∧
    (runKeys (NewModel "key") [ .enter, .down, .down, .esc ]).cursor = 2 := by
  decide

/-- C5: with no client configured, confirm on any of the seven
backend-requiring main-menu items (cursor 0-6) sets the error status
message, stays on MainMenu with the cursor unchanged, and returns no
command; the Settings item (cursor 7) transitions to the settings view
with no connectivity check (no assumption on `clientSet`) and no
command. -/
theorem mainmenu_connectivity_gate (m : Model)
    (hv : m.currentView = .mainMenuView) (hf : m.showingInput = false) :
    (m.clientSet = false → 0 ≤ m.cursor → m.cursor ≤ 6 →
      (m.Update (.keyMsg .enter)).1.currentView = .mainMenuView ∧
      (m.Update (.keyMsg .enter)).1.cursor = m.cursor ∧
      (m.Update (.keyMsg .enter)).1.message = "Please set API key in Settings first" ∧
      (m.Update (.keyMsg .enter)).1.messageStyle = .errorStyle ∧
      (m.Update (.keyMsg .enter)).2 = none) ∧
    (m.cursor = 7 →
      (m.Update (.keyMsg .enter)).1.currentView = .settingsView ∧
      (m.Update (.keyMsg .enter)).2 = none) := by
  constructor
  · intro hc h0 h6
    have hcase : m.cursor = 0 ∨ m.cursor = 1 ∨ m.cursor = 2 ∨ m.cursor = 3 ∨
        m.cursor = 4 ∨ m.cursor = 5 ∨ m.cursor = 6 := by omega
    rcases hcase with h | h | h | h | h | h | h <;>
      simp [Model.Update, Model.handleEnter, Model.enterGated, hv, hf, hc, h]
  · intro h7
    simp [Model.Update, Model.handleEnter, hv, hf, h7]

/-- Closed instantiation of `mainmenu_connectivity_gate` at the initial
model with no API key. -/
theorem mainmenu_connectivity_gate_witness :
    ((NewModel "").Update (.keyMsg .enter)).1.currentView = .mainMenuView ∧
    ((NewModel "").Update (.keyMsg .enter)).1.message
      = "Please set API key in Settings first" ∧
    ((NewModel "").Update (.keyMsg .enter)).1.messageStyle = .errorStyle ∧
    ((NewModel "").Update (.keyMsg .enter)).2 = none := by
  have h := (mainmenu_connectivity_gate (NewModel "") rfl rfl).1 (by decide)
    (by decide) (by decide)
  exact ⟨h.1, h.2.2.1, h.2.2.2.1, h.2.2.2.2⟩

theorem foldForm_nil (f : InputForm) : foldForm f [] = f := rfl

theorem foldForm_cons (f : InputForm) (key : Key) (rest : List Key) :
    foldForm f (key :: rest) = foldForm (f.Update key).1 rest := rfl

theorem setFocusFlags_length (fi : Int) (l : List Field) :
    ∀ i : Nat, (setFocusFlags fi i l).length = l.length := by
  induction l with
  | nil => intro i; simp [setFocusFlags]
  | cons a l ih => intro i; simp [setFocusFlags, ih]

theorem setFocusFlags_countP_out (fi : Int) (l : List Field) :
    ∀ i : Nat, (fi < (i : Int) ∨ (i : Int) + l.length ≤ fi) →
      (setFocusFlags fi i l).countP Field.focused = 0 := by
  induction l with
  | nil => intro i _; simp [setFocusFlags]
  | cons a l ih =>
    intro i h
    have hne : ¬ ((i : Int) = fi) := by
      rcases h with h | h
      · omega
      · simp only [List.length_cons] at h; push_cast at h; omega
    have hrest : fi < ((i + 1 : Nat) : Int) ∨ ((i + 1 : Nat) : Int) + l.length ≤ fi := by
      rcases h with h | h
      · left; push_cast; omega
      · right; simp only [List.length_cons] at h; push_cast at h ⊢; omega
    simp [setFocusFlags, hne, List.countP_cons, ih (i + 1) hrest]

theorem setFocusFlags_countP_one (fi : Int) (l : List Field) :
    ∀ i : Nat, (i : Int) ≤ fi → fi < (i : Int) + l.length →
      (setFocusFlags fi i l).countP Field.focused = 1 := by
  induction l with
  | nil =>
    intro i hlo hhi
    exfalso
    simp only [List.length_nil] at hhi
    omega
  | cons a l ih =>
    intro i hlo hhi
    simp only [List.length_cons] at hhi
    push_cast at hhi
    by_cases he : (i : Int) = fi
    · have h0 : (setFocusFlags fi (i + 1) l).countP Field.focused = 0 :=
        setFocusFlags_countP_out fi l (i + 1) (by left; push_cast; omega)
      simp [setFocusFlags, he, List.countP_cons, h0]
    · have h1 : ((i + 1 : Nat) : Int) ≤ fi := by push_cast; omega
      have h2 : fi < ((i + 1 : Nat) : Int) + l.length := by push_cast; omega
      simp [setFocusFlags, he, List.countP_cons, ih (i + 1) h1 h2]

theorem update_tab (f : InputForm) :
    f.Update .tab
      = ({ f with
            focusIndex := wrapFocus (f.inputs.length : Int) (f.focusIndex + 1),
            inputs := setFocusFlags (wrapFocus (f.inputs.length : Int) (f.focusIndex + 1))
              0 f.inputs },
         none) := rfl

theorem update_down (f : InputForm) :
    f.Update .down
      = ({ f with
            focusIndex := wrapFocus (f.inputs.length : Int) (f.focusIndex + 1),
            inputs := setFocusFlags (wrapFocus (f.inputs.length : Int) (f.focusIndex + 1))
              0 f.inputs },
         none) := rfl

theorem update_up (f : InputForm) :
    f.Update .up
      = ({ f with
            focusIndex := wrapFocus (f.inputs.length : Int) (f.focusIndex - 1),
            inputs := setFocusFlags (wrapFocus (f.inputs.length : Int) (f.focusIndex - 1))
              0 f.inputs },
         none) := rfl

theorem update_shiftTab (f : InputForm) :
    f.Update .shiftTab
      = ({ f with
            focusIndex := wrapFocus (f.inputs.length : Int) (f.focusIndex - 1),
            inputs := setFocusFlags (wrapFocus (f.inputs.length : Int) (f.focusIndex - 1))
              0 f.inputs },
         none) := rfl

/-- One navigation key (tab, shift+tab, up, down) keeps the field count,
keeps the focus index inside `[0, N-1]`, leaves exactly one field
focused, and for the forward keys advances the focus by one modulo N. -/
theorem form_nav_step (f : InputForm) (key : Key)
    (hkey : key = .tab ∨ key = .shiftTab ∨ key = .up ∨ key = .down)
    (hN : 0 < f.inputs.length)
    (hlo : 0 ≤ f.focusIndex) (hhi : f.focusIndex < (f.inputs.length : Int)) :
    (f.Update key).1.inputs.length = f.inputs.length ∧
    0 ≤ (f.Update key).1.focusIndex ∧
    (f.Update key).1.focusIndex < (f.inputs.length : Int) ∧
    (f.Update key).1.inputs.countP Field.focused = 1 ∧
    ((key = .tab ∨ key = .down) →
      (f.Update key).1.focusIndex = (f.focusIndex + 1) % (f.inputs.length : Int)) := by
  have hN' : (0 : Int) < (f.inputs.length : Int) := by exact_mod_cast hN
  have hfacts : ∀ fi0 : Int, -1 ≤ fi0 → fi0 ≤ (f.inputs.length : Int) →
      0 ≤ wrapFocus (f.inputs.length : Int) fi0 ∧
      wrapFocus (f.inputs.length : Int) fi0 < (f.inputs.length : Int) := by
    intro fi0 h1 h2
    unfold wrapFocus
    split_ifs <;> omega
  have hcount : ∀ fi : Int, 0 ≤ fi → fi < (f.inputs.length : Int) →
      (setFocusFlags fi 0 f.inputs).countP Field.focused = 1 := by
    intro fi h1 h2
    exact setFocusFlags_countP_one fi f.inputs 0 (by push_cast; omega) (by push_cast; omega)
  have hwrapfwd : wrapFocus (f.inputs.length : Int) (f.focusIndex + 1)
      = (f.focusIndex + 1) % (f.inputs.length : Int) := by
    unfold wrapFocus
    by_cases hc : f.focusIndex + 1 > (f.inputs.length : Int) - 1
    · have he : f.focusIndex + 1 = (f.inputs.length : Int) := by omega
      simp [hc, he, Int.emod_self]
    · rw [if_neg hc, if_neg (by omega), Int.emod_eq_of_lt (by omega) (by omega)]
  rcases hkey with h | h | h | h <;> subst h
  · rw [update_tab]
    have hb := hfacts (f.focusIndex + 1) (by omega) (by omega)
    exact ⟨setFocusFlags_length _ _ 0, hb.1, hb.2, hcount _ hb.1 hb.2, fun _ => hwrapfwd⟩
  · rw [update_shiftTab]
    have hb := hfacts (f.focusIndex - 1) (by omega) (by omega)
    refine ⟨setFocusFlags_length _ _ 0, hb.1, hb.2, hcount _ hb.1 hb.2, ?_⟩
    intro hcon
    rcases hcon with hcon | hcon <;> simp at hcon
  · rw [update_up]
    have hb := hfacts (f.focusIndex - 1) (by omega) (by omega)
    refine ⟨setFocusFlags_length _ _ 0, hb.1, hb.2, hcount _ hb.1 hb.2, ?_⟩
    intro hcon
    rcases hcon with hcon | hcon <;> simp at hcon
  · rw [update_down]
    have hb := hfacts (f.focusIndex + 1) (by omega) (by omega)
    exact ⟨setFocusFlags_length _ _ 0, hb.1, hb.2, hcount _ hb.1 hb.2, fun _ => hwrapfwd⟩

theorem foldForm_forward (fwd : List Key) :
    ∀ f : InputForm, (∀ key ∈ fwd, key = .tab ∨ key = .down) → 0 < f.inputs.length →
      0 ≤ f.focusIndex → f.focusIndex < (f.inputs.length : Int) →
      (foldForm f fwd).focusIndex
          = (f.focusIndex + fwd.length) % (f.inputs.length : Int) ∧
      (foldForm f fwd).inputs.length = f.inputs.length := by
  induction fwd with
  | nil =>
    intro f _ hN hlo hhi
    rw [foldForm_nil]
    exact ⟨by simpa using (Int.emod_eq_of_lt hlo hhi).symm, rfl⟩
  | cons key rest ih =>
    intro f hkeys hN hlo hhi
    have hk : key = .tab ∨ key = .down := hkeys key (by simp)
    have hstep := form_nav_step f key
      (by rcases hk with h | h
          · exact Or.inl h
          · exact Or.inr (Or.inr (Or.inr h))) hN hlo hhi
    have hmod := hstep.2.2.2.2 hk
    have hrest := ih (f.Update key).1 (fun key2 hk2 => hkeys key2 (by simp [hk2]))
      (by rw [hstep.1]; exact hN) hstep.2.1 (by rw [hstep.1]; exact hstep.2.2.1)
    rw [foldForm_cons]
    refine ⟨?_, by rw [hrest.2, hstep.1]⟩
    rw [hrest.1, hstep.1, hmod, List.length_cons]
    push_cast
    rw [Int.emod_add_emod]
    ring_nf

theorem foldForm_nav_invariant (nav : List Key) :
    ∀ f : InputForm,
      (∀ key ∈ nav, key = .tab ∨ key = .shiftTab ∨ key = .up ∨ key = .down) →
      0 < f.inputs.length → 0 ≤ f.focusIndex → f.focusIndex < (f.inputs.length : Int) →
      f.inputs.countP Field.focused = 1 →
      ((foldForm f nav).inputs.length = f.inputs.length ∧
       0 ≤ (foldForm f nav).focusIndex ∧
       (foldForm f nav).focusIndex < ((foldForm f nav).inputs.length : Int) ∧
       (foldForm f nav).inputs.countP Field.focused = 1) := by
  induction nav with
  | nil =>
    intro f _ hN hlo hhi hone
    rw [foldForm_nil]
    exact ⟨rfl, hlo, hhi, hone⟩
  | cons key rest ih =>
    intro f hkeys hN hlo hhi hone
    have hstep := form_nav_step f key (hkeys key (by simp)) hN hlo hhi
    have hrest := ih (f.Update key).1 (fun key2 hk2 => hkeys key2 (by simp [hk2]))
      (by rw [hstep.1]; exact hN) hstep.2.1 (by rw [hstep.1]; exact hstep.2.2.1)
      hstep.2.2.2.1
    rw [foldForm_cons]
    exact ⟨by rw [hrest.1, hstep.1], hrest.2⟩

/-- C7: from focus 0, K consecutive focus-forward events (tab/down) put
the focus at `K mod N`; any mix of focus-forward and focus-backward
events keeps the focus inside `[0, N-1]` with exactly one field marked
focused. -/
theorem focus_cycle_mod_and_bounds (f0 : InputForm) (fwd nav : List Key)
    (hN : 0 < f0.inputs.length) (h0 : f0.focusIndex = 0)
    (hone : f0.inputs.countP Field.focused = 1)
    (hfwd : ∀ key ∈ fwd, key = .tab ∨ key = .down)
    (hnav : ∀ key ∈ nav, key = .tab ∨ key = .shiftTab ∨ key = .up ∨ key = .down) :
    (foldForm f0 fwd).focusIndex = (fwd.length : Int) % (f0.inputs.length : Int) ∧
    0 ≤ (foldForm f0 nav).focusIndex ∧
    (foldForm f0 nav).focusIndex < ((foldForm f0 nav).inputs.length : Int) ∧
    (foldForm f0 nav).inputs.length = f0.inputs.length ∧
    (foldForm f0 nav).inputs.countP Field.focused = 1 := by
  have hN' : (0 : Int) < (f0.inputs.length : Int) := by exact_mod_cast hN
  have h1 := foldForm_forward fwd f0 hfwd hN (by omega) (by omega)
  have h2 := foldForm_nav_invariant nav f0 hnav hN (by omega) (by omega) hone
  refine ⟨?_, h2.2.1, h2.2.2.1, h2.1, h2.2.2.2⟩
  rw [h1.1, h0, zero_add]

/-- Closed instantiation of `focus_cycle_mod_and_bounds` at a two-field
form, three forward events and a forward/backward mix. -/
theorem focus_cycle_mod_and_bounds_witness :
    (foldForm (newInputForm "t2" [ "a", "b" ] (fun _ => none))
        [ .tab, .tab, .tab ]).focusIndex
      = ((3 : Int) % ((newInputForm "t2" [ "a", "b" ] (fun _ => none)).inputs.length : Int)) ∧
    0 ≤ (foldForm (newInputForm "t2" [ "a", "b" ] (fun _ => none))
        [ .down, .up, .shiftTab ]).focusIndex ∧
    (foldForm (newInputForm "t2" [ "a", "b" ] (fun _ => none))
        [ .down, .up, .shiftTab ]).focusIndex
      < ((foldForm (newInputForm "t2" [ "a", "b" ] (fun _ => none))
          [ .down, .up, .shiftTab ]).inputs.length : Int) ∧
    (foldForm (newInputForm "t2" [ "a", "b" ] (fun _ => none))
        [ .down, .up, .shiftTab ]).inputs.length
      = (newInputForm "t2" [ "a", "b" ] (fun _ => none)).inputs.length ∧
    (foldForm (newInputForm "t2" [ "a", "b" ] (fun _ => none))
        [ .down, .up, .shiftTab ]).inputs.countP Field.focused = 1 :=
  focus_cycle_mod_and_bounds (newInputForm "t2" [ "a", "b" ] (fun _ => none))
    [ .tab, .tab, .tab ] [ .down, .up, .shiftTab ]
    (by decide) (by decide) (by decide) (by decide) (by decide)

theorem inputForm_update_submitFunc (f : InputForm) (key : Key) :
    (f.Update key).1.submitFunc = f.submitFunc := by
  unfold InputForm.Update
  split_ifs <;> rfl

theorem inputForm_update_no_quit (f : InputForm) (key : Key) (h : submitNeverQuits f) :
    isQuitCmd (f.Update key).2 = false := by
  unfold InputForm.Update
  split_ifs <;> first | rfl | exact h _

set_option maxHeartbeats 1000000 in
theorem handleEnter_submitNeverQuits (m : Model) (ih : submitNeverQuits m.inputForm) :
    submitNeverQuits (m.handleEnter).1.inputForm := by
  unfold Model.handleEnter
  by_cases hv : m.currentView = .mainMenuView
  · rw [if_pos hv]
    unfold Model.enterGated
    split_ifs <;> exact ih
  · rw [if_neg hv]
    cases hcv : m.currentView with
    | mainMenuView => exact absurd hcv hv
    | paymentView =>
      unfold Model.handlePaymentSelection Model.showDepositForm Model.showWithdrawForm
        Model.showPreparePaymentForm Model.showAuthorizePaymentForm Model.showVerifyAccessForm
      split_ifs <;> first | (intro values; rfl) | exact ih
    | poolView =>
      unfold Model.handlePoolSelection Model.showPoolBalanceForm Model.showPoolDepositForm
        Model.showPoolWithdrawForm
      split_ifs <;> first | (intro values; rfl) | exact ih
    | tokenView =>
      unfold Model.handleTokenSelection Model.showAddTokenForm Model.showUpdateTokenForm
        Model.showRemoveTokenForm
      split_ifs <;> first | (intro values; rfl) | exact ih
    | authorizationView =>
      unfold Model.handleAuthorizationSelection Model.showAuthorizeSpendingForm
        Model.showListAuthorizationsForm Model.showRevokeAuthorizationForm
      split_ifs <;> first | (intro values; rfl) | exact ih
    | merchantView =>
      unfold Model.handleMerchantSelection Model.showGetAnalyticsForm
        Model.showWithdrawEarningsForm Model.showDecryptAmountForm
      split_ifs <;> first | (intro values; rfl) | exact ih
    | webhookView =>
      unfold Model.handleWebhookSelection Model.showRegisterWebhookForm
        Model.showTestWebhookForm Model.showViewLogsForm Model.showDeactivateWebhookForm
      split_ifs <;> first | (intro values; rfl) | exact ih
    | shadowIDView =>
      unfold Model.handleShadowIDSelection Model.showAutoRegisterForm
        Model.showRegisterCommitmentForm Model.showGetProofForm Model.showCheckStatusForm
      split_ifs <;> first | (intro values; rfl) | exact ih
    | settingsView => exact ih

theorem update_submitNeverQuits (m : Model) (msg : Msg)
    (ih : submitNeverQuits m.inputForm) :
    submitNeverQuits (m.Update msg).1.inputForm := by
  cases msg with
  | operationSuccessMsg text => exact ih
  | operationErrorMsg err => exact ih
  | loadingMsg text => exact ih
  | windowSizeMsg w h => exact ih
  | keyMsg key =>
    by_cases hs : m.showingInput = true
    · simp only [Model.Update, hs, if_true]
      split_ifs
      · exact ih
      · exact ih
      · intro values
        rw [inputForm_update_submitFunc]
        exact ih values
    · have hs' : m.showingInput = false := by simpa using hs
      simp only [Model.Update, hs', Bool.false_eq_true, if_false]
      split_ifs <;> first | exact ih | exact handleEnter_submitNeverQuits m ih

theorem reachable_submitNeverQuits {m : Model} (h : Reachable m) :
    submitNeverQuits m.inputForm := by
  induction h with
  | init apiKey => intro values; rfl
  | step msg hr hd ih => exact update_submitNeverQuits _ msg ih

set_option maxHeartbeats 1000000 in
theorem handleEnter_quit_iff (m : Model) :
    isQuitCmd (m.handleEnter).2 = true ↔
      (m.currentView = .mainMenuView ∧ m.cursor = 8) := by
  unfold Model.handleEnter
  by_cases hv : m.currentView = .mainMenuView
  · rw [if_pos hv]
    unfold Model.enterGated
    split_ifs <;> simp_all [isQuitCmd]
  · rw [if_neg hv]
    cases hcv : m.currentView with
    | mainMenuView => exact absurd hcv hv
    | paymentView =>
      unfold Model.handlePaymentSelection Model.showDepositForm Model.showWithdrawForm
        Model.showPreparePaymentForm Model.showAuthorizePaymentForm Model.showVerifyAccessForm
      split_ifs <;> simp [isQuitCmd, hv]
    | poolView =>
      unfold Model.handlePoolSelection Model.showPoolBalanceForm Model.showPoolDepositForm
        Model.showPoolWithdrawForm
      split_ifs <;> simp [isQuitCmd, hv]
    | tokenView =>
      unfold Model.handleTokenSelection Model.showAddTokenForm Model.showUpdateTokenForm
        Model.showRemoveTokenForm
      split_ifs <;> simp [isQuitCmd, hv]
    | authorizationView =>
      unfold Model.handleAuthorizationSelection Model.showAuthorizeSpendingForm
        Model.showListAuthorizationsForm Model.showRevokeAuthorizationForm
      split_ifs <;> simp [isQuitCmd, hv]
    | merchantView =>
      unfold Model.handleMerchantSelection Model.showGetAnalyticsForm
        Model.showWithdrawEarningsForm Model.showDecryptAmountForm
      split_ifs <;> simp [isQuitCmd, hv]
    | webhookView =>
      unfold Model.handleWebhookSelection Model.showRegisterWebhookForm
        Model.showTestWebhookForm Model.showViewLogsForm Model.showDeactivateWebhookForm
      split_ifs <;> simp [isQuitCmd, hv]
    | shadowIDView =>
      unfold Model.handleShadowIDSelection Model.showAutoRegisterForm
        Model.showRegisterCommitmentForm Model.showGetProofForm Model.showCheckStatusForm
      split_ifs <;> simp [isQuitCmd, hv]
    | settingsView => simp [isQuitCmd, hv]

/-- C3 amended: in every reachable state, the update step returns the
process-termination command exactly when no form is active, the view is
MainMenu, and the key is the quit key (q/ctrl+c) or confirm on the Exit
item (cursor 8) — or when a form is active and the key is ctrl+c.  In
particular no other key event, and no non-key message, terminates. -/
theorem quit_only_from_mainmenu_or_form_ctrl_c {m : Model} (hr : Reachable m) (msg : Msg) :
    isQuitCmd (m.Update msg).2 = true ↔
      ((m.showingInput = true ∧ msg = .keyMsg .ctrlC) ∨
       (m.showingInput = false ∧ m.currentView = .mainMenuView ∧
         (msg = .keyMsg .ctrlC ∨ msg = .keyMsg .q ∨
          (msg = .keyMsg .enter ∧ m.cursor = 8)))) := by
  have hsnq := reachable_submitNeverQuits hr
  cases msg with
  | operationSuccessMsg text => simp [Model.Update, isQuitCmd]
  | operationErrorMsg err => simp [Model.Update, isQuitCmd]
  | loadingMsg text => simp [Model.Update, isQuitCmd]
  | windowSizeMsg w h => simp [Model.Update, isQuitCmd]
  | keyMsg key =>
    by_cases hs : m.showingInput = true
    · cases key with
      | ctrlC => simp [Model.Update, hs, isQuitCmd]
      | esc => simp [Model.Update, hs, isQuitCmd]
      | q => simp [Model.Update, hs, inputForm_update_no_quit _ _ hsnq]
      | up => simp [Model.Update, hs, inputForm_update_no_quit _ _ hsnq]
      | k => simp [Model.Update, hs, inputForm_update_no_quit _ _ hsnq]
      | down => simp [Model.Update, hs, inputForm_update_no_quit _ _ hsnq]
      | j => simp [Model.Update, hs, inputForm_update_no_quit _ _ hsnq]
      | enter => simp [Model.Update, hs, inputForm_update_no_quit _ _ hsnq]
      | tab => simp [Model.Update, hs, inputForm_update_no_quit _ _ hsnq]
      | shiftTab => simp [Model.Update, hs, inputForm_update_no_quit _ _ hsnq]
      | char c => simp [Model.Update, hs, inputForm_update_no_quit _ _ hsnq]
      | other => simp [Model.Update, hs, inputForm_update_no_quit _ _ hsnq]
    · have hs' : m.showingInput = false := by simpa using hs
      cases key with
      | ctrlC =>
        by_cases hv : m.currentView = .mainMenuView <;>
          simp [Model.Update, hs', hv, isQuitCmd]
      | q =>
        by_cases hv : m.currentView = .mainMenuView <;>
          simp [Model.Update, hs', hv, isQuitCmd]
      | esc =>
        by_cases hv : m.currentView = .mainMenuView <;>
          simp [Model.Update, hs', hv, isQuitCmd]
      | enter => simp [Model.Update, hs', handleEnter_quit_iff]
      | up => simp [Model.Update, hs', isQuitCmd]
      | k => simp [Model.Update, hs', isQuitCmd]
      | down => simp [Model.Update, hs', isQuitCmd]
      | j => simp [Model.Update, hs', isQuitCmd]
      | tab => simp [Model.Update, hs', isQuitCmd]
      | shiftTab => simp [Model.Update, hs', isQuitCmd]
      | char c => simp [Model.Update, hs', isQuitCmd]
      | other => simp [Model.Update, hs', isQuitCmd]

/-- Closed instantiation of `quit_only_from_mainmenu_or_form_ctrl_c` at
the initial model and the quit key. -/
theorem quit_only_from_mainmenu_or_form_ctrl_c_witness :
    isQuitCmd ((NewModel "").Update (.keyMsg .q)).2 = true :=
  (quit_only_from_mainmenu_or_form_ctrl_c (Reachable.init "") (.keyMsg .q)).mpr
    (Or.inr ⟨rfl, rfl, Or.inr (Or.inl rfl)⟩)

/-- C8 amended: entering a sub-view from MainMenu on confirm and
selecting a sub-view's Back item reset the cursor to 0, but returning to
MainMenu via the cancel key or the quit key preserves the cursor value
(it is not reset). -/
theorem view_transition_cursor_discipline (m : Model) (hf : m.showingInput = false) :
    (m.currentView = .mainMenuView → m.clientSet = true → 0 ≤ m.cursor → m.cursor ≤ 7 →
      (m.Update (.keyMsg .enter)).1.cursor = 0) ∧
    (∀ b : Int, backIndex m.currentView = some b → m.cursor = b →
      (m.Update (.keyMsg .enter)).1.currentView = .mainMenuView ∧
      (m.Update (.keyMsg .enter)).1.cursor = 0) ∧
    (m.currentView ≠ .mainMenuView →
      ((m.Update (.keyMsg .esc)).1.currentView = .mainMenuView ∧
       (m.Update (.keyMsg .esc)).1.cursor = m.cursor) ∧
      ((m.Update (.keyMsg .q)).1.currentView = .mainMenuView ∧
       (m.Update (.keyMsg .q)).1.cursor = m.cursor)) := by
  refine ⟨?_, ?_, ?_⟩
  · intro hv hcl h0 h7
    have hcase : m.cursor = 0 ∨ m.cursor = 1 ∨ m.cursor = 2 ∨ m.cursor = 3 ∨
        m.cursor = 4 ∨ m.cursor = 5 ∨ m.cursor = 6 ∨ m.cursor = 7 := by omega
    rcases hcase with h | h | h | h | h | h | h | h <;>
      simp [Model.Update, Model.handleEnter, Model.enterGated, hf, hv, hcl, h]
  · intro b hb hc
    cases hcv : m.currentView with
    | mainMenuView => rw [hcv] at hb; simp [backIndex] at hb
    | settingsView => rw [hcv] at hb; simp [backIndex] at hb
    | paymentView =>
      rw [hcv] at hb
      simp only [backIndex, Option.some_inj] at hb
      subst hb
      simp [Model.Update, Model.handleEnter, Model.handlePaymentSelection, hf, hcv, hc]
    | poolView =>
      rw [hcv] at hb
      simp only [backIndex, Option.some_inj] at hb
      subst hb
      simp [Model.Update, Model.handleEnter, Model.handlePoolSelection, hf, hcv, hc]
    | tokenView =>
      rw [hcv] at hb
      simp only [backIndex, Option.some_inj] at hb
      subst hb
      simp [Model.Update, Model.handleEnter, Model.handleTokenSelection, hf, hcv, hc]
    | authorizationView =>
      rw [hcv] at hb
      simp only [backIndex, Option.some_inj] at hb
      subst hb
      simp [Model.Update, Model.handleEnter, Model.handleAuthorizationSelection, hf, hcv, hc]
    | merchantView =>
      rw [hcv] at hb
      simp only [backIndex, Option.some_inj] at hb
      subst hb
      simp [Model.Update, Model.handleEnter, Model.handleMerchantSelection, hf, hcv, hc]
    | webhookView =>
      rw [hcv] at hb
      simp only [backIndex, Option.some_inj] at hb
      subst hb
      simp [Model.Update, Model.handleEnter, Model.handleWebhookSelection, hf, hcv, hc]
    | shadowIDView =>
      rw [hcv] at hb
      simp only [backIndex, Option.some_inj] at hb
      subst hb
      simp [Model.Update, Model.handleEnter, Model.handleShadowIDSelection, hf, hcv, hc]
  · intro hv
    simp [Model.Update, hf, hv]

/-- Closed instantiation of `view_transition_cursor_discipline` at the
payment view with the cursor on a non-zero item. -/
theorem view_transition_cursor_discipline_witness :
    ((runKeys (NewModel "key") [ .enter, .down, .down ]).Update (.keyMsg .esc)).1.currentView
      = View.mainMenuView ∧
    ((runKeys (NewModel "key") [ .enter, .down, .down ]).Update (.keyMsg .esc)).1.cursor
      = (runKeys (NewModel "key") [ .enter, .down, .down ]).cursor :=
  (((view_transition_cursor_discipline (runKeys (NewModel "key") [ .enter, .down, .down ])
      (by decide)).2.2) (by decide)).1

set_option maxHeartbeats 1000000 in
theorem handleEnter_loading (m : Model) : (m.handleEnter).1.loading = m.loading := by
  unfold Model.handleEnter
  by_cases hv : m.currentView = .mainMenuView
  · rw [if_pos hv]
    unfold Model.enterGated
    split_ifs <;> rfl
  · rw [if_neg hv]
    cases hcv : m.currentView with
    | mainMenuView => exact absurd hcv hv
    | paymentView =>
      unfold Model.handlePaymentSelection Model.showDepositForm Model.showWithdrawForm
        Model.showPreparePaymentForm Model.showAuthorizePaymentForm Model.showVerifyAccessForm
      split_ifs <;> rfl
    | poolView =>
      unfold Model.handlePoolSelection Model.showPoolBalanceForm Model.showPoolDepositForm
        Model.showPoolWithdrawForm
      split_ifs <;> rfl
    | tokenView =>
      unfold Model.handleTokenSelection Model.showAddTokenForm Model.showUpdateTokenForm
        Model.showRemoveTokenForm
      split_ifs <;> rfl
    | authorizationView =>
      unfold Model.handleAuthorizationSelection Model.showAuthorizeSpendingForm
        Model.showListAuthorizationsForm Model.showRevokeAuthorizationForm
      split_ifs <;> rfl
    | merchantView =>
      unfold Model.handleMerchantSelection Model.showGetAnalyticsForm
        Model.showWithdrawEarningsForm Model.showDecryptAmountForm
      split_ifs <;> rfl
    | webhookView =>
      unfold Model.handleWebhookSelection Model.showRegisterWebhookForm
        Model.showTestWebhookForm Model.showViewLogsForm Model.showDeactivateWebhookForm
      split_ifs <;> rfl
    | shadowIDView =>
      unfold Model.handleShadowIDSelection Model.showAutoRegisterForm
        Model.showRegisterCommitmentForm Model.showGetProofForm Model.showCheckStatusForm
      split_ifs <;> rfl
    | settingsView => rfl

theorem update_key_loading (m : Model) (key : Key) :
    (m.Update (.keyMsg key)).1.loading = m.loading := by
  by_cases hs : m.showingInput = true
  · simp only [Model.Update, hs, if_true]
    split_ifs <;> rfl
  · have hs' : m.showingInput = false := by simpa using hs
    simp only [Model.Update, hs', Bool.false_eq_true, if_false]
    split_ifs <;> first | rfl | exact handleEnter_loading m

/-- C10: in every reachable state the operation-in-flight flag
`Model.loading` is false: `NewModel` starts it false, only a
`loadingMsg` delivery sets it true, and no deliverable message is a
`loadingMsg` because every command body yields a success or error
outcome — so the loading screen is never displayed. -/
theorem loading_never_set {m : Model} (h : Reachable m) : m.loading = false := by
  induction h with
  | init apiKey => rfl
  | step msg hr hd ih =>
    cases hd with
    | keyEvent key => rw [update_key_loading]; exact ih
    | resize w h2 => simpa [Model.Update] using ih
    | opResult body env => cases hb : body env <;> simp [Model.Update, OpOutcome.toMsg]

/-- Closed instantiation of `loading_never_set` at the initial model. -/
theorem loading_never_set_witness : (NewModel "").loading = false :=
  loading_never_set (Reachable.init "")

end SolPrivacyCli
